import Mathlib

/-!
# OpenGLMinimal: the call sequence of `main.cpp`

`main.cpp` is straight-line set-up code followed by one render loop; everything
it computes is a sequence of calls into GLFW, GLAD and OpenGL.  The embedding
therefore records the calls the program issues, in order, as a `List Call`.
What the external libraries answer (the window handle, the loader result, the
object names, the three status words, the info logs, the keyboard and the
window-system events) is collected in `Env`.
-/

namespace OpenGLMinimal

/-- A decimal float literal of the source, `mantissa / 10 ^ decimals`;
`-0.5f` is `⟨-5, 1⟩`. -/
structure FloatLit where
  mantissa : Int
  decimals : Nat
deriving DecidableEq, Repr

/-- The symbolic constants of `glfw3.h` that `main.cpp` passes. -/
inductive GLFWconst where
  | GLFW_CONTEXT_VERSION_MAJOR
  | GLFW_CONTEXT_VERSION_MINOR
  | GLFW_OPENGL_PROFILE
  | GLFW_OPENGL_CORE_PROFILE
  | GLFW_KEY_ESCAPE
deriving DecidableEq, Repr

/-- The symbolic constants of `glad.h` that `main.cpp` passes. -/
inductive GLenum where
  | GL_ARRAY_BUFFER
  | GL_STATIC_DRAW
  | GL_VERTEX_SHADER
  | GL_FRAGMENT_SHADER
  | GL_COMPILE_STATUS
  | GL_LINK_STATUS
  | GL_FLOAT
  | GL_TRIANGLES
  | GL_COLOR_BUFFER_BIT
deriving DecidableEq, Repr

/-- The second argument of `glfwWindowHint`: a number or a named constant. -/
inductive HintValue where
  | num (n : Int)
  | const (c : GLFWconst)
deriving DecidableEq, Repr

/-- The two standard output streams of the process. -/
inductive OutStream where
  | stdout
  | stderr
deriving DecidableEq, Repr

/-- One call issued by the program, with its arguments as written in the
source.  `write s msg` is `s << msg << std::endl`.  What GLFW does inside
`glfwPollEvents`, the callbacks it runs included, belongs to that call. -/
inductive Call where
  | glfwInit
  | glfwWindowHint (hint : GLFWconst) (value : HintValue)
  | glfwCreateWindow (width height : Int) (title : String)
  | write (s : OutStream) (msg : String)
  | glfwTerminate
  | glfwMakeContextCurrent (window : Nat)
  | gladLoadGLLoader
  | glViewport (x y width height : Int)
  | glfwSetFramebufferSizeCallback (window : Nat)
  | glGenBuffers (n : Nat)
  | glGenVertexArrays (n : Nat)
  | glBindVertexArray (array : Nat)
  | glBindBuffer (target : GLenum) (buffer : Nat)
  | glBufferData (target : GLenum) (size : Nat) (data : List FloatLit) (usage : GLenum)
  | glCreateShader (kind : GLenum)
  | glShaderSource (shader : Nat) (count : Nat) (source : String)
  | glCompileShader (shader : Nat)
  | glGetShaderiv (shader : Nat) (pname : GLenum)
  | glGetShaderInfoLog (shader : Nat) (maxLength : Nat)
  | glCreateProgram
  | glAttachShader (program shader : Nat)
  | glLinkProgram (program : Nat)
  | glGetProgramiv (program : Nat) (pname : GLenum)
  | glGetProgramInfoLog (program : Nat) (maxLength : Nat)
  | glVertexAttribPointer (index : Nat) (size : Nat) (type : GLenum) (normalized : Bool)
      (stride : Nat) (offset : Nat)
  | glEnableVertexAttribArray (index : Nat)
  | glDeleteShader (shader : Nat)
  | glfwWindowShouldClose (window : Nat)
  | glfwGetKey (window : Nat) (key : GLFWconst)
  | glfwSetWindowShouldClose (window : Nat) (value : Bool)
  | glClearColor (r g b a : FloatLit)
  | glClear (mask : GLenum)
  | glUseProgram (program : Nat)
  | glDrawArrays (mode : GLenum) (first count : Nat)
  | glfwSwapBuffers (window : Nat)
  | glfwPollEvents
deriving DecidableEq, Repr

/-- What the outside world does during the `i`-th pass through the loop body. -/
structure Frame where
  /-- Whether `glfwGetKey(window, GLFW_KEY_ESCAPE) == GLFW_PRESS`. -/
  escapePressed : Bool
  /-- What `glfwPollEvents` does to the should-close flag: `none` leaves it,
  `some b` sets it to `b`. -/
  pollEffect : Option Bool
deriving DecidableEq, Repr

/-- The answers of GLFW, GLAD and the OpenGL driver during one run. -/
structure Env where
  /-- Result of `glfwCreateWindow`; `none` is `NULL`. -/
  window : Option Nat
  /-- Result of `gladLoadGLLoader`. -/
  loaderOk : Bool
  /-- Name written by `glGenBuffers`. -/
  VBO : Nat
  /-- Name written by `glGenVertexArrays`. -/
  VAO : Nat
  /-- Name returned by `glCreateShader(GL_VERTEX_SHADER)`. -/
  vertexShader : Nat
  /-- Name returned by `glCreateShader(GL_FRAGMENT_SHADER)`. -/
  fragmentShader : Nat
  /-- Name returned by `glCreateProgram`. -/
  shaderProgram : Nat
  /-- Value of `success` after `glGetShaderiv(vertexShader, GL_COMPILE_STATUS, &success)`. -/
  vertexStatus : Int
  /-- Value of `success` after `glGetShaderiv(fragmentShader, GL_COMPILE_STATUS, &success)`. -/
  fragmentStatus : Int
  /-- Value of `success` after `glGetProgramiv(shaderProgram, GL_LINK_STATUS, &success)`. -/
  linkStatus : Int
  /-- Text written to `infoLog` by `glGetShaderInfoLog(vertexShader, ...)`. -/
  vertexLog : String
  /-- Text written to `infoLog` by `glGetShaderInfoLog(fragmentShader, ...)`. -/
  fragmentLog : String
  /-- Text written to `infoLog` by `glGetProgramInfoLog(shaderProgram, ...)`. -/
  linkLog : String
  /-- Keyboard and window-system events, per loop iteration. -/
  frames : Nat → Frame

/-! ## The source, function by function -/

/-- `framebuffer_size_callback` (lines 10-13): one `glViewport` call. -/
def framebuffer_size_callback (_window : Nat) (width height : Int) : List Call :=
  [Call.glViewport 0 0 width height]

/-- `processInput` (lines 16-20): the calls issued and the should-close flag
afterwards, given the flag before and whether Escape is down. -/
def processInput (window : Nat) (escapePressed : Bool) (flag : Bool) : List Call × Bool :=
  if escapePressed then
    ([Call.glfwGetKey window GLFWconst.GLFW_KEY_ESCAPE,
      Call.glfwSetWindowShouldClose window true], true)
  else
    ([Call.glfwGetKey window GLFWconst.GLFW_KEY_ESCAPE], flag)

/-- The C string `vertexShaderSource` (lines 24-29), up to its first NUL. -/
def vertexShaderSource : String :=
  "#version 330 core\n" ++
  "layout (location = 0) in vec3 aPos;\n" ++
  "void main()\n" ++
  "\x7b\n" ++
  " gl_Position = vec4(aPos.x, aPos.y, aPos.z, 1.0);\n" ++
  "\x7d"

/-- The C string `fragmentShaderSource` (lines 32-37), up to its first NUL. -/
def fragmentShaderSource : String :=
  "#version 330 core\n" ++
  "out vec4 FragColor;\n" ++
  "void main()\n" ++
  "\x7b\n" ++
  " FragColor = vec4(1.0f, 0.5f, 0.2f, 1.0f);\n" ++
  "\x7d"

/-- The array `vertices` (lines 65-69). -/
def vertices : List FloatLit :=
  [⟨-5, 1⟩, ⟨-5, 1⟩, ⟨0, 1⟩,
   ⟨5, 1⟩, ⟨-5, 1⟩, ⟨0, 1⟩,
   ⟨0, 1⟩, ⟨5, 1⟩, ⟨0, 1⟩]

/-- The size of a `float` in bytes. -/
def sizeofFloat : Nat := 4

/-- The C expression `sizeof(vertices)`. -/
def sizeofVertices : Nat := vertices.length * sizeofFloat

/-- Lines 41-46: library start-up, the three window hints and window creation. -/
def createWindowCalls : List Call :=
  [Call.glfwInit,
   Call.glfwWindowHint GLFWconst.GLFW_CONTEXT_VERSION_MAJOR (HintValue.num 3),
   Call.glfwWindowHint GLFWconst.GLFW_CONTEXT_VERSION_MINOR (HintValue.num 3),
   Call.glfwWindowHint GLFWconst.GLFW_OPENGL_PROFILE
     (HintValue.const GLFWconst.GLFW_OPENGL_CORE_PROFILE),
   Call.glfwCreateWindow 800 600 "LearnOpenGL"]

/-- Lines 61-104: first viewport, the resize callback, and the geometry upload. -/
def uploadCalls (env : Env) (window : Nat) : List Call :=
  [Call.glViewport 0 0 800 600,
   Call.glfwSetFramebufferSizeCallback window,
   Call.glGenBuffers 1,
   Call.glGenVertexArrays 1,
   Call.glBindVertexArray env.VAO,
   Call.glBindBuffer GLenum.GL_ARRAY_BUFFER env.VBO,
   Call.glBufferData GLenum.GL_ARRAY_BUFFER sizeofVertices vertices GLenum.GL_STATIC_DRAW]

/-- Lines 107-128: create, source and compile the vertex shader, query
`GL_COMPILE_STATUS`, and report when `!success`. -/
def vertexShaderCalls (env : Env) : List Call :=
  [Call.glCreateShader GLenum.GL_VERTEX_SHADER,
   Call.glShaderSource env.vertexShader 1 vertexShaderSource,
   Call.glCompileShader env.vertexShader,
   Call.glGetShaderiv env.vertexShader GLenum.GL_COMPILE_STATUS] ++
  (if env.vertexStatus = 0 then
    [Call.glGetShaderInfoLog env.vertexShader 512,
     Call.write OutStream.stdout
       ("ERROR::SHADER::VERTEX::COMPILATION_FAILED\n" ++ env.vertexLog)]
   else [])

/-- Lines 131-144: the same for the fragment shader. -/
def fragmentShaderCalls (env : Env) : List Call :=
  [Call.glCreateShader GLenum.GL_FRAGMENT_SHADER,
   Call.glShaderSource env.fragmentShader 1 fragmentShaderSource,
   Call.glCompileShader env.fragmentShader,
   Call.glGetShaderiv env.fragmentShader GLenum.GL_COMPILE_STATUS] ++
  (if env.fragmentStatus = 0 then
    [Call.glGetShaderInfoLog env.fragmentShader 512,
     Call.write OutStream.stdout
       ("ERROR::SHADER::FRAGMENT::COMPILATION_FAILED\n" ++ env.fragmentLog)]
   else [])

/-- Lines 149-163: create the program, attach both shaders, link, query
`GL_LINK_STATUS`, and report when `!success`. -/
def linkCalls (env : Env) : List Call :=
  [Call.glCreateProgram,
   Call.glAttachShader env.shaderProgram env.vertexShader,
   Call.glAttachShader env.shaderProgram env.fragmentShader,
   Call.glLinkProgram env.shaderProgram,
   Call.glGetProgramiv env.shaderProgram GLenum.GL_LINK_STATUS] ++
  (if env.linkStatus = 0 then
    [Call.glGetProgramInfoLog env.shaderProgram 512,
     Call.write OutStream.stdout
       ("ERROR::SHADER::PROGRAM::LINKING_FAILED\n" ++ env.linkLog)]
   else [])

/-- Lines 175-176: the layout of attribute 0. -/
def attribCalls : List Call :=
  [Call.glVertexAttribPointer 0 3 GLenum.GL_FLOAT false (3 * sizeofFloat) 0,
   Call.glEnableVertexAttribArray 0]

/-- Lines 179-180: both shader objects are deleted. -/
def deleteCalls (env : Env) : List Call :=
  [Call.glDeleteShader env.vertexShader,
   Call.glDeleteShader env.fragmentShader]

/-- Lines 41-163 on the path where both start-up checks pass: every call
issued before attribute 0 is configured. -/
def beforeAttribCalls (env : Env) (window : Nat) : List Call :=
  createWindowCalls ++ [Call.glfwMakeContextCurrent window, Call.gladLoadGLLoader] ++
    uploadCalls env window ++ vertexShaderCalls env ++ fragmentShaderCalls env ++
    linkCalls env

/-- Lines 61-180, everything between the loader check and the loop. -/
def setupCalls (env : Env) (window : Nat) : List Call :=
  uploadCalls env window ++ vertexShaderCalls env ++ fragmentShaderCalls env ++
    linkCalls env ++ attribCalls ++ deleteCalls env

/-- Lines 189-198: what the loop body issues after `processInput`. -/
def renderCalls (env : Env) (window : Nat) : List Call :=
  [Call.glClearColor ⟨2, 1⟩ ⟨3, 1⟩ ⟨3, 1⟩ ⟨10, 1⟩,
   Call.glClear GLenum.GL_COLOR_BUFFER_BIT,
   Call.glUseProgram env.shaderProgram,
   Call.glBindVertexArray env.VAO,
   Call.glDrawArrays GLenum.GL_TRIANGLES 0 3,
   Call.glfwSwapBuffers window,
   Call.glfwPollEvents]

/-- The loop body (lines 187-198) in iteration `i`: `processInput` and then
the render calls. -/
def frameCalls (env : Env) (window : Nat) (i : Nat) (flag : Bool) : List Call :=
  (processInput window (env.frames i).escapePressed flag).1 ++ renderCalls env window

/-- The should-close flag at the end of iteration `i`, given the flag at its
start: `processInput` may set it, then `glfwPollEvents` may overwrite it. -/
def flagAfterFrame (env : Env) (window : Nat) (i : Nat) (flag : Bool) : Bool :=
  match (env.frames i).pollEffect with
  | some b => b
  | none => (processInput window (env.frames i).escapePressed flag).2

/-- The loop of lines 184-199, started at iteration `i` with the should-close
flag `flag`: the calls issued, and whether the loop has been left.  Every
loop-head test costs one unit of fuel; when the fuel runs out the loop is still
running and the calls issued so far are returned with `false`. -/
def renderLoop (env : Env) (window : Nat) : Nat → Nat → Bool → List Call × Bool
  | 0, _, _ => ([], false)
  | fuel + 1, i, flag =>
    if flag then
      ([Call.glfwWindowShouldClose window], true)
    else
      let rest := renderLoop env window fuel (i + 1) (flagAfterFrame env window i flag)
      (Call.glfwWindowShouldClose window :: (frameCalls env window i flag ++ rest.1), rest.2)

/-- Lines 53-55 and 61-180: everything `main` issues between window creation
and the loop when both start-up checks pass. -/
def startupCalls (env : Env) (window : Nat) : List Call :=
  createWindowCalls ++ [Call.glfwMakeContextCurrent window, Call.gladLoadGLLoader] ++
    setupCalls env window

/-- The function `main` (lines 39-203): the calls issued and the value
returned; the value is `none` while the loop is still running after `fuel`
loop-head tests.  A new window's should-close flag is unset. -/
def main (env : Env) (fuel : Nat) : List Call × Option Int :=
  match env.window with
  | none =>
    (createWindowCalls ++
      [Call.write OutStream.stdout "Failed to create GLFW window", Call.glfwTerminate],
     some (-1))
  | some window =>
    if env.loaderOk = false then
      (createWindowCalls ++
        [Call.glfwMakeContextCurrent window, Call.gladLoadGLLoader,
         Call.write OutStream.stdout "Failed to initialize GLAD"],
       some (-1))
    else
      let loop := renderLoop env window fuel 0 false
      if loop.2 then
        (startupCalls env window ++ loop.1 ++ [Call.glfwTerminate], some 0)
      else
        (startupCalls env window ++ loop.1, none)

/-! ## The OpenGL state the calls act on -/

/-- The layout of one vertex attribute together with the buffer it reads. -/
structure AttribLayout where
  size : Nat
  type : GLenum
  normalized : Bool
  stride : Nat
  offset : Nat
  buffer : Nat
deriving DecidableEq, Repr

/-- The part of the OpenGL context state that the calls of `main.cpp` write:
viewport, clear colour, the array-buffer and vertex-array bindings, buffer
contents (newest first), attribute layouts and enable flags per vertex array,
and whether a call was rejected with `GL_INVALID_VALUE`.  The current program
is not part of it: whether `glUseProgram` installs a program depends on the
outcome of its last link, which the calls do not show. -/
structure GLState where
  viewport : Int × Int × Int × Int
  clearColor : FloatLit × FloatLit × FloatLit × FloatLit
  arrayBuffer : Nat
  vertexArray : Nat
  bufferStore : List (Nat × Nat × List FloatLit)
  attribs : List ((Nat × Nat) × AttribLayout)
  enabled : List (Nat × Nat)
  invalidValue : Bool
deriving DecidableEq, Repr

/-- The state of a fresh context for a window of the given size. -/
def GLState.fresh (width height : Int) : GLState :=
  { viewport := (0, 0, width, height)
    clearColor := (⟨0, 1⟩, ⟨0, 1⟩, ⟨0, 1⟩, ⟨0, 1⟩)
    arrayBuffer := 0
    vertexArray := 0
    bufferStore := []
    attribs := []
    enabled := []
    invalidValue := false }

/-- The documented effect of one call on the context state.  `glViewport`
rejects a negative width or height (the implementation-dependent clamp to the
largest supported viewport is left out); calls into GLFW, GLAD and the shader
and program objects leave this part of the state alone. -/
def applyCall (s : GLState) : Call → GLState
  | Call.glViewport x y w h =>
    if w < 0 ∨ h < 0 then { s with invalidValue := true }
    else { s with viewport := (x, y, w, h) }
  | Call.glClearColor r g b a => { s with clearColor := (r, g, b, a) }
  | Call.glBindVertexArray v => { s with vertexArray := v }
  | Call.glBindBuffer GLenum.GL_ARRAY_BUFFER b => { s with arrayBuffer := b }
  | Call.glBufferData GLenum.GL_ARRAY_BUFFER size data _ =>
    { s with bufferStore := (s.arrayBuffer, size, data) :: s.bufferStore }
  | Call.glVertexAttribPointer index size type normalized stride offset =>
    { s with attribs :=
        ((s.vertexArray, index),
          { size := size, type := type, normalized := normalized, stride := stride,
            offset := offset, buffer := s.arrayBuffer }) :: s.attribs }
  | Call.glEnableVertexAttribArray index =>
    { s with enabled := (s.vertexArray, index) :: s.enabled }
  | _ => s

/-- The state after a sequence of calls. -/
def runCalls (s : GLState) (calls : List Call) : GLState :=
  calls.foldl applyCall s

/-- The current contents of a buffer: its size in bytes and its data. -/
def GLState.bufferContents (s : GLState) (buffer : Nat) : Option (Nat × List FloatLit) :=
  (s.bufferStore.find? (fun e => e.1 == buffer)).map (fun e => e.2)

/-- The current layout of an attribute of a vertex array. -/
def GLState.attribLayout (s : GLState) (array index : Nat) : Option AttribLayout :=
  (s.attribs.find? (fun e => e.1 == (array, index))).map (fun e => e.2)

/-- What one draw call draws with: the vertex array bound when it is issued,
and its arguments. -/
structure DrawRecord where
  vertexArray : Nat
  mode : GLenum
  first : Nat
  count : Nat
deriving DecidableEq, Repr

/-- The draw calls of a call sequence, in order, each with the bindings in
force when it is issued. -/
def drawLog : GLState → List Call → List DrawRecord
  | _, [] => []
  | s, Call.glDrawArrays mode first count :: rest =>
    { vertexArray := s.vertexArray, mode := mode, first := first, count := count } ::
      drawLog s rest
  | s, c :: rest => drawLog (applyCall s c) rest

/-! ## Observations on call sequences -/

/-- Whether a call is an OpenGL call (a `gl...` function). -/
def Call.isGraphics : Call → Bool
  | Call.glViewport _ _ _ _ => true
  | Call.glGenBuffers _ => true
  | Call.glGenVertexArrays _ => true
  | Call.glBindVertexArray _ => true
  | Call.glBindBuffer _ _ => true
  | Call.glBufferData _ _ _ _ => true
  | Call.glCreateShader _ => true
  | Call.glShaderSource _ _ _ => true
  | Call.glCompileShader _ => true
  | Call.glGetShaderiv _ _ => true
  | Call.glGetShaderInfoLog _ _ => true
  | Call.glCreateProgram => true
  | Call.glAttachShader _ _ => true
  | Call.glLinkProgram _ => true
  | Call.glGetProgramiv _ _ => true
  | Call.glGetProgramInfoLog _ _ => true
  | Call.glVertexAttribPointer _ _ _ _ _ _ => true
  | Call.glEnableVertexAttribArray _ => true
  | Call.glDeleteShader _ => true
  | Call.glClearColor _ _ _ _ => true
  | Call.glClear _ => true
  | Call.glUseProgram _ => true
  | Call.glDrawArrays _ _ _ => true
  | _ => false

/-- The shader name a call takes as an argument, if it takes one. -/
def Call.shaderArg : Call → Option Nat
  | Call.glShaderSource sh _ _ => some sh
  | Call.glCompileShader sh => some sh
  | Call.glGetShaderiv sh _ => some sh
  | Call.glGetShaderInfoLog sh _ => some sh
  | Call.glAttachShader _ sh => some sh
  | Call.glDeleteShader sh => some sh
  | _ => none

/-- The stream and text of a call that writes to a standard stream. -/
def Call.written : Call → Option (OutStream × String)
  | Call.write s msg => some (s, msg)
  | _ => none

/-- Everything a call sequence writes to the standard streams, in order. -/
def writes (calls : List Call) : List (OutStream × String) :=
  calls.filterMap Call.written

/-- Whether a call is the invocation of the GPU loader. -/
def Call.isLoader : Call → Bool
  | Call.gladLoadGLLoader => true
  | _ => false

/-- The shader name a `glDeleteShader` call deletes. -/
def Call.deleted : Call → Option Nat
  | Call.glDeleteShader sh => some sh
  | _ => none

/-- The shader names a call sequence deletes, in order. -/
def deletions (calls : List Call) : List Nat :=
  calls.filterMap Call.deleted

/-- The first `n` passes through the loop starting at iteration `i`: each is
the loop-head test followed by the loop body. -/
def iterations (env : Env) (window : Nat) : Nat → Nat → List Call
  | _, 0 => []
  | i, n + 1 =>
    Call.glfwWindowShouldClose window :: (frameCalls env window i false ++
      iterations env window (i + 1) n)

/-- The should-close flag is still unset at the end of each of the iterations
`i, ..., i + n - 1` and is set at the end of iteration `i + n`. -/
def closesAt (env : Env) (window : Nat) (i n : Nat) : Prop :=
  (∀ j, j < n → flagAfterFrame env window (i + j) false = false) ∧
    flagAfterFrame env window (i + n) false = true

/-- Whether a call is a draw call. -/
def Call.isDraw : Call → Bool
  | Call.glDrawArrays _ _ _ => true
  | _ => false

/-- Whether the call sequence passes `program` to `glUseProgram` and issues a
draw call afterwards. -/
def usedForDrawing (program : Nat) : List Call → Bool
  | [] => false
  | Call.glUseProgram p :: rest =>
    (p == program && rest.any Call.isDraw) || usedForDrawing program rest
  | _ :: rest => usedForDrawing program rest

/-- Whether a call belongs to the reporting of a diagnostic: the retrieval of
an info log or a write to a standard stream. -/
def Call.isDiagnostic : Call → Bool
  | Call.glGetShaderInfoLog _ _ => true
  | Call.glGetProgramInfoLog _ _ => true
  | Call.write _ _ => true
  | _ => false

/-- The call sequence without its diagnostic calls. -/
def withoutDiagnostics (calls : List Call) : List Call :=
  calls.filter (fun c => !c.isDiagnostic)

/-- The same run with other answers to the three status queries. -/
def Env.withStatus (env : Env) (vertex fragment link : Int) : Env :=
  { env with vertexStatus := vertex, fragmentStatus := fragment, linkStatus := link }

/-- The set-up calls of the path where both start-up checks pass, without
the diagnostic calls of lines 125-127, 141-143 and 160-162. -/
def quietStartupCalls (env : Env) (window : Nat) : List Call :=
  createWindowCalls ++ [Call.glfwMakeContextCurrent window, Call.gladLoadGLLoader] ++
    uploadCalls env window ++
    [Call.glCreateShader GLenum.GL_VERTEX_SHADER,
     Call.glShaderSource env.vertexShader 1 vertexShaderSource,
     Call.glCompileShader env.vertexShader,
     Call.glGetShaderiv env.vertexShader GLenum.GL_COMPILE_STATUS,
     Call.glCreateShader GLenum.GL_FRAGMENT_SHADER,
     Call.glShaderSource env.fragmentShader 1 fragmentShaderSource,
     Call.glCompileShader env.fragmentShader,
     Call.glGetShaderiv env.fragmentShader GLenum.GL_COMPILE_STATUS,
     Call.glCreateProgram,
     Call.glAttachShader env.shaderProgram env.vertexShader,
     Call.glAttachShader env.shaderProgram env.fragmentShader,
     Call.glLinkProgram env.shaderProgram,
     Call.glGetProgramiv env.shaderProgram GLenum.GL_LINK_STATUS] ++
    attribCalls ++ deleteCalls env

/-- The record of every draw call of the loop body. -/
def frameDraw (env : Env) : DrawRecord :=
  { vertexArray := env.VAO, mode := GLenum.GL_TRIANGLES, first := 0, count := 3 }

/-- Lines 41-155 on the path where both start-up checks pass: every call
issued before the link request. -/
def beforeLinkCalls (env : Env) (window : Nat) : List Call :=
  createWindowCalls ++ [Call.glfwMakeContextCurrent window, Call.gladLoadGLLoader] ++
    uploadCalls env window ++ vertexShaderCalls env ++ fragmentShaderCalls env ++
    [Call.glCreateProgram,
     Call.glAttachShader env.shaderProgram env.vertexShader,
     Call.glAttachShader env.shaderProgram env.fragmentShader]

instance closesAt.decidable (env : Env) (window i n : Nat) :
    Decidable (closesAt env window i n) := by
  unfold closesAt
  exact inferInstance

/-! ## Sample environments -/

/-- Nothing happens in the first pass; Escape is down in the second. -/
def escapeInSecondFrame : Nat → Frame :=
  fun i => if i = 1 then ⟨true, none⟩ else ⟨false, none⟩

/-- The window system asks to close during the first event poll. -/
def closeOnFirstPoll : Nat → Frame :=
  fun _ => ⟨false, some true⟩

/-- A run in which everything succeeds and Escape is pressed in the second frame. -/
def goodEnv : Env :=
  { window := some 7, loaderOk := true, VBO := 1, VAO := 1, vertexShader := 1,
    fragmentShader := 2, shaderProgram := 3, vertexStatus := 1, fragmentStatus := 1,
    linkStatus := 1, vertexLog := "", fragmentLog := "", linkLog := "",
    frames := escapeInSecondFrame }

/-- A run in which both compiles and the link report failure. -/
def failedShadersEnv : Env :=
  { window := some 7, loaderOk := true, VBO := 1, VAO := 1, vertexShader := 1,
    fragmentShader := 2, shaderProgram := 3, vertexStatus := 0, fragmentStatus := 0,
    linkStatus := 0, vertexLog := "0:5: syntax error", fragmentLog := "0:5: syntax error",
    linkLog := "link of invalid shaders", frames := escapeInSecondFrame }

/-- A run in which only the vertex compile and the link report failure, and the
window is closed during the first event poll. -/
def vertexFailedEnv : Env :=
  { window := some 7, loaderOk := true, VBO := 1, VAO := 1, vertexShader := 1,
    fragmentShader := 2, shaderProgram := 3, vertexStatus := 0, fragmentStatus := 1,
    linkStatus := 0, vertexLog := "0:5: syntax error", fragmentLog := "",
    linkLog := "link of invalid shaders", frames := closeOnFirstPoll }

/-- A run in which `glfwCreateWindow` returns `NULL`. -/
def noWindowEnv : Env :=
  { goodEnv with window := none }

/-- A run in which `gladLoadGLLoader` reports failure. -/
def noLoaderEnv : Env :=
  { goodEnv with loaderOk := false }

/-! ## Lemmas on the loop -/

theorem runCalls_append (s : GLState) (a b : List Call) :
    runCalls s (a ++ b) = runCalls (runCalls s a) b := by
  simp [runCalls, List.foldl_append]

theorem drawLog_append (s : GLState) (a b : List Call) :
    drawLog s (a ++ b) = drawLog s a ++ drawLog (runCalls s a) b := by
  induction a generalizing s with
  | nil => simp [drawLog, runCalls]
  | cons c rest ih =>
    cases c <;> simp [drawLog, runCalls, applyCall, ih]

theorem writes_append (a b : List Call) : writes (a ++ b) = writes a ++ writes b := by
  simp [writes, List.filterMap_append]

theorem deletions_append (a b : List Call) :
    deletions (a ++ b) = deletions a ++ deletions b := by
  simp [deletions, List.filterMap_append]

theorem drawLog_frameCalls (env : Env) (window i : Nat) (flag : Bool) (s : GLState) :
    drawLog s (frameCalls env window i flag) = [frameDraw env] := by
  unfold frameCalls processInput renderCalls
  split <;> simp [drawLog, applyCall, frameDraw]

theorem drawLog_iterations (env : Env) (window : Nat) (n i : Nat) (s : GLState) :
    drawLog s (iterations env window i n) = List.replicate n (frameDraw env) := by
  induction n generalizing i s with
  | zero => simp [iterations, drawLog]
  | succ n ih =>
    simp [iterations, drawLog, applyCall, drawLog_append, drawLog_frameCalls, ih,
      List.replicate_succ]

theorem drawLog_shouldClose (s : GLState) (window : Nat) (rest : List Call) :
    drawLog s (Call.glfwWindowShouldClose window :: rest) = drawLog s rest := by
  simp [drawLog, applyCall]

theorem drawLog_terminate (s : GLState) : drawLog s [Call.glfwTerminate] = [] := by
  simp [drawLog]

theorem drawLog_renderLoop (env : Env) (window : Nat) (fuel : Nat) :
    ∀ i flag s, ∃ k,
      drawLog s (renderLoop env window fuel i flag).1 = List.replicate k (frameDraw env) := by
  induction fuel with
  | zero => intro i flag s; exact ⟨0, by simp [renderLoop, drawLog]⟩
  | succ fuel ih =>
    intro i flag s
    cases flag with
    | true => exact ⟨0, by simp [renderLoop, drawLog]⟩
    | false =>
      obtain ⟨k, e⟩ := ih (i + 1) (flagAfterFrame env window i false)
        (runCalls s (frameCalls env window i false))
      refine ⟨k + 1, ?_⟩
      simp only [renderLoop, Bool.false_eq_true, if_false, drawLog_shouldClose, drawLog_append,
        drawLog_frameCalls, e]
      simp [List.replicate_succ]

theorem renderLoop_closes (env : Env) (window : Nat) (n : Nat) :
    ∀ i k, closesAt env window i n →
      renderLoop env window (n + 2 + k) i false =
        (iterations env window i (n + 1) ++ [Call.glfwWindowShouldClose window], true) := by
  induction n with
  | zero =>
    intro i k h
    have h1 : flagAfterFrame env window i false = true := by simpa using h.2
    have e : 0 + 2 + k = (k + 1) + 1 := by omega
    rw [e]
    simp [renderLoop, iterations, h1]
  | succ n ih =>
    intro i k h
    have h0 : flagAfterFrame env window i false = false := by
      simpa using h.1 0 (Nat.succ_pos n)
    have hc : closesAt env window (i + 1) n := by
      refine ⟨fun j hj => ?_, ?_⟩
      · have := h.1 (j + 1) (Nat.succ_lt_succ hj)
        simpa [Nat.add_assoc, Nat.add_comm 1 j] using this
      · have := h.2
        simpa [Nat.add_assoc, Nat.add_comm 1 n] using this
    have e : n + 1 + 2 + k = (n + 2 + k) + 1 := by omega
    rw [e]
    simp only [renderLoop, h0, Bool.false_eq_true, if_false, ih (i + 1) k hc]
    simp [iterations]

theorem iterations_succ_right (env : Env) (window : Nat) (n : Nat) :
    ∀ i, iterations env window i (n + 1) =
      iterations env window i n ++
        (Call.glfwWindowShouldClose window :: frameCalls env window (i + n) false) := by
  induction n with
  | zero => intro i; simp [iterations]
  | succ n ih =>
    intro i
    have e : i + 1 + n = i + (n + 1) := by omega
    rw [iterations, ih (i + 1), e]
    simp [iterations]

theorem count_shouldClose_iterations (env : Env) (window : Nat) (n : Nat) :
    ∀ i, (iterations env window i n).count (Call.glfwWindowShouldClose window) = n := by
  induction n with
  | zero => intro i; simp [iterations]
  | succ n ih =>
    intro i
    have hf : (frameCalls env window i false).count (Call.glfwWindowShouldClose window) = 0 := by
      unfold frameCalls processInput renderCalls
      split <;> simp [List.count_cons]
    simp [iterations, List.count_cons, List.count_append, hf, ih (i + 1)]

theorem count_shouldClose_startupCalls (env : Env) (window : Nat) :
    (startupCalls env window).count (Call.glfwWindowShouldClose window) = 0 := by
  apply List.count_eq_zero.2
  unfold startupCalls setupCalls createWindowCalls uploadCalls vertexShaderCalls
    fragmentShaderCalls linkCalls attribCalls deleteCalls
  by_cases hv : env.vertexStatus = 0 <;> by_cases hf : env.fragmentStatus = 0 <;>
    by_cases hl : env.linkStatus = 0 <;> simp [hv, hf, hl]

theorem drawLog_startupCalls (env : Env) (window : Nat) (s : GLState) :
    drawLog s (startupCalls env window) = [] := by
  unfold startupCalls setupCalls createWindowCalls uploadCalls vertexShaderCalls
    fragmentShaderCalls linkCalls attribCalls deleteCalls
  by_cases hv : env.vertexStatus = 0 <;> by_cases hf : env.fragmentStatus = 0 <;>
    by_cases hl : env.linkStatus = 0 <;> simp [hv, hf, hl, drawLog, applyCall]

/-- When both start-up checks pass, `main` is the set-up calls, the loop, and
`glfwTerminate` with exit status 0 once the loop has been left. -/
theorem main_started (env : Env) (window : Nat) (hw : env.window = some window)
    (hl : env.loaderOk = true) (fuel : Nat) :
    main env fuel =
      if (renderLoop env window fuel 0 false).2 then
        (startupCalls env window ++ (renderLoop env window fuel 0 false).1 ++
          [Call.glfwTerminate], some 0)
      else
        (startupCalls env window ++ (renderLoop env window fuel 0 false).1, none) := by
  simp [main, hw, hl]

theorem main_closes (env : Env) (window : Nat) (hw : env.window = some window)
    (hl : env.loaderOk = true) (n k : Nat) (hc : closesAt env window 0 n) :
    main env (n + 2 + k) =
      (startupCalls env window ++ iterations env window 0 (n + 1) ++
        [Call.glfwWindowShouldClose window, Call.glfwTerminate], some 0) := by
  rw [main_started env window hw hl, renderLoop_closes env window n 0 k hc]
  simp

theorem startup_sublist (env : Env) (window : Nat) :
    [Call.glCreateProgram,
     Call.glAttachShader env.shaderProgram env.vertexShader,
     Call.glAttachShader env.shaderProgram env.fragmentShader,
     Call.glLinkProgram env.shaderProgram,
     Call.glVertexAttribPointer 0 3 GLenum.GL_FLOAT false 12 0].Sublist
      (startupCalls env window) := by
  unfold startupCalls setupCalls createWindowCalls uploadCalls vertexShaderCalls
    fragmentShaderCalls linkCalls attribCalls deleteCalls sizeofFloat
  by_cases hv : env.vertexStatus = 0 <;> by_cases hf : env.fragmentStatus = 0 <;>
    by_cases hl : env.linkStatus = 0 <;>
    simp only [hv, hf, hl, if_true, if_false, List.cons_append, List.nil_append,
      List.append_nil, Nat.reduceMul] <;>
    repeat (first
      | exact List.Sublist.slnil
      | apply List.Sublist.cons₂
      | apply List.Sublist.cons)

theorem mem_renderLoop (env : Env) (window : Nat) (fuel : Nat) :
    ∀ i flag c, c ∈ (renderLoop env window fuel i flag).1 →
      c = Call.glfwWindowShouldClose window ∨
      c = Call.glfwGetKey window GLFWconst.GLFW_KEY_ESCAPE ∨
      c = Call.glfwSetWindowShouldClose window true ∨
      c ∈ renderCalls env window := by
  induction fuel with
  | zero => intro i flag c h; simp [renderLoop] at h
  | succ fuel ih =>
    intro i flag c h
    cases flag with
    | true =>
      simp [renderLoop] at h
      exact Or.inl h
    | false =>
      simp only [renderLoop, Bool.false_eq_true, if_false, List.mem_cons, List.mem_append] at h
      rcases h with h | h | h
      · exact Or.inl h
      · unfold frameCalls processInput at h
        split at h <;> simp at h <;> tauto
      · exact ih _ _ c h

theorem writes_renderLoop (env : Env) (window fuel i : Nat) (flag : Bool) :
    writes (renderLoop env window fuel i flag).1 = [] := by
  apply List.filterMap_eq_nil_iff.2
  intro c h
  rcases mem_renderLoop env window fuel i flag c h with h | h | h | h
  · rw [h]; rfl
  · rw [h]; rfl
  · rw [h]; rfl
  · simp [renderCalls] at h
    rcases h with h | h | h | h | h | h | h <;> rw [h] <;> rfl

theorem deletions_renderLoop (env : Env) (window fuel i : Nat) (flag : Bool) :
    deletions (renderLoop env window fuel i flag).1 = [] := by
  apply List.filterMap_eq_nil_iff.2
  intro c h
  rcases mem_renderLoop env window fuel i flag c h with h | h | h | h
  · rw [h]; rfl
  · rw [h]; rfl
  · rw [h]; rfl
  · simp [renderCalls] at h
    rcases h with h | h | h | h | h | h | h <;> rw [h] <;> rfl

theorem shaderArg_renderLoop (env : Env) (window fuel i : Nat) (flag : Bool) :
    ∀ c ∈ (renderLoop env window fuel i flag).1, c.shaderArg = none := by
  intro c h
  rcases mem_renderLoop env window fuel i flag c h with h | h | h | h
  · rw [h]; rfl
  · rw [h]; rfl
  · rw [h]; rfl
  · simp [renderCalls] at h
    rcases h with h | h | h | h | h | h | h <;> rw [h] <;> rfl

theorem isLoader_renderLoop (env : Env) (window fuel i : Nat) (flag : Bool) :
    (renderLoop env window fuel i flag).1.countP Call.isLoader = 0 := by
  apply List.countP_eq_zero.2
  intro c h
  rcases mem_renderLoop env window fuel i flag c h with h | h | h | h
  · rw [h]; simp [Call.isLoader]
  · rw [h]; simp [Call.isLoader]
  · rw [h]; simp [Call.isLoader]
  · simp [renderCalls] at h
    rcases h with h | h | h | h | h | h | h <;> rw [h] <;> simp [Call.isLoader]

theorem writes_startupCalls (env : Env) (window : Nat) :
    writes (startupCalls env window) =
      (if env.vertexStatus = 0 then
        [(OutStream.stdout, "ERROR::SHADER::VERTEX::COMPILATION_FAILED\n" ++ env.vertexLog)]
       else []) ++
      (if env.fragmentStatus = 0 then
        [(OutStream.stdout, "ERROR::SHADER::FRAGMENT::COMPILATION_FAILED\n" ++ env.fragmentLog)]
       else []) ++
      (if env.linkStatus = 0 then
        [(OutStream.stdout, "ERROR::SHADER::PROGRAM::LINKING_FAILED\n" ++ env.linkLog)]
       else []) := by
  unfold startupCalls setupCalls createWindowCalls uploadCalls vertexShaderCalls
    fragmentShaderCalls linkCalls attribCalls deleteCalls
  by_cases hv : env.vertexStatus = 0 <;> by_cases hf : env.fragmentStatus = 0 <;>
    by_cases hl : env.linkStatus = 0 <;> simp [hv, hf, hl, writes, Call.written]

theorem isLoader_setupCalls (env : Env) (window : Nat) :
    (setupCalls env window).countP Call.isLoader = 0 := by
  apply List.countP_eq_zero.2
  unfold setupCalls uploadCalls vertexShaderCalls
    fragmentShaderCalls linkCalls attribCalls deleteCalls
  by_cases hv : env.vertexStatus = 0 <;> by_cases hf : env.fragmentStatus = 0 <;>
    by_cases hl : env.linkStatus = 0 <;> simp [hv, hf, hl, Call.isLoader]

theorem startupCalls_eq (env : Env) (window : Nat) :
    startupCalls env window =
      beforeAttribCalls env window ++ attribCalls ++ deleteCalls env := by
  simp [startupCalls, setupCalls, beforeAttribCalls, List.append_assoc]

theorem drawLog_main (env : Env) (window : Nat) (hw : env.window = some window)
    (hl : env.loaderOk = true) (fuel : Nat) :
    ∃ k, drawLog (GLState.fresh 800 600) (main env fuel).1 =
      List.replicate k (frameDraw env) := by
  obtain ⟨k, e⟩ := drawLog_renderLoop env window fuel 0 false
    (runCalls (GLState.fresh 800 600) (startupCalls env window))
  refine ⟨k, ?_⟩
  rw [main_started env window hw hl]
  split <;>
    simp only [drawLog_append, drawLog_startupCalls, drawLog_terminate, List.nil_append,
      List.append_nil, e]

theorem runCalls_shaderCalls (env : Env) (s : GLState) :
    runCalls s (vertexShaderCalls env ++ fragmentShaderCalls env ++ linkCalls env) = s := by
  unfold vertexShaderCalls fragmentShaderCalls linkCalls
  by_cases hv : env.vertexStatus = 0 <;> by_cases hf : env.fragmentStatus = 0 <;>
    by_cases hl : env.linkStatus = 0 <;> simp [hv, hf, hl, runCalls, applyCall]

theorem runCalls_beforeAttribCalls (env : Env) (window : Nat) :
    runCalls (GLState.fresh 800 600) (beforeAttribCalls env window) =
      { GLState.fresh 800 600 with
        arrayBuffer := env.VBO
        vertexArray := env.VAO
        bufferStore := [(env.VBO, 36, vertices)] } := by
  have e : beforeAttribCalls env window =
      (createWindowCalls ++ [Call.glfwMakeContextCurrent window, Call.gladLoadGLLoader] ++
        uploadCalls env window) ++
      (vertexShaderCalls env ++ fragmentShaderCalls env ++ linkCalls env) := by
    simp [beforeAttribCalls, List.append_assoc]
  rw [e, runCalls_append, runCalls_shaderCalls]
  simp [runCalls, createWindowCalls, uploadCalls, applyCall, GLState.fresh, sizeofVertices,
    sizeofFloat, vertices]

theorem deletions_startupCalls (env : Env) (window : Nat) :
    deletions (startupCalls env window) = [env.vertexShader, env.fragmentShader] := by
  unfold startupCalls setupCalls createWindowCalls uploadCalls vertexShaderCalls
    fragmentShaderCalls linkCalls attribCalls deleteCalls
  by_cases hv : env.vertexStatus = 0 <;> by_cases hf : env.fragmentStatus = 0 <;>
    by_cases hl : env.linkStatus = 0 <;> simp [hv, hf, hl, deletions, Call.deleted]

theorem beforeLinkCalls_spec (env : Env) (window : Nat) :
    Call.glfwWindowShouldClose window ∉ beforeLinkCalls env window ∧
      ∀ c ∈ beforeLinkCalls env window, c.deleted = none := by
  unfold beforeLinkCalls createWindowCalls uploadCalls vertexShaderCalls fragmentShaderCalls
  by_cases hv : env.vertexStatus = 0 <;> by_cases hf : env.fragmentStatus = 0 <;>
    simp [hv, hf, Call.deleted]

theorem renderLoop_running (env : Env) (window : Nat) (fuel : Nat) :
    ∀ i, (∀ j, j + 1 < fuel → flagAfterFrame env window (i + j) false = false) →
      renderLoop env window fuel i false = (iterations env window i fuel, false) := by
  induction fuel with
  | zero => intro i _; simp [renderLoop, iterations]
  | succ fuel ih =>
    intro i h
    cases fuel with
    | zero => simp [renderLoop, iterations]
    | succ m =>
      have h0 : flagAfterFrame env window i false = false := by
        simpa using h 0 (by omega)
      have hrest : ∀ j, j + 1 < m + 1 →
          flagAfterFrame env window (i + 1 + j) false = false := by
        intro j hj
        have := h (j + 1) (by omega)
        simpa [Nat.add_assoc, Nat.add_comm 1 j] using this
      have step : renderLoop env window (m + 1 + 1) i false =
          (Call.glfwWindowShouldClose window ::
            (frameCalls env window i false ++ (renderLoop env window (m + 1) (i + 1) false).1),
           (renderLoop env window (m + 1) (i + 1) false).2) := by
        rw [renderLoop]
        simp [h0]
      rw [step, ih (i + 1) hrest]
      simp [iterations]

theorem main_running (env : Env) (window : Nat) (hw : env.window = some window)
    (hl : env.loaderOk = true) (fuel : Nat)
    (h : ∀ j, j + 1 < fuel → flagAfterFrame env window j false = false) :
    main env fuel = (startupCalls env window ++ iterations env window 0 fuel, none) := by
  have h2 : ∀ j, j + 1 < fuel → flagAfterFrame env window (0 + j) false = false := by
    intro j hj
    simpa using h j hj
  rw [main_started env window hw hl, renderLoop_running env window fuel 0 h2]
  simp

theorem usedForDrawing_append (program : Nat) (a b : List Call)
    (h : b.any Call.isDraw = true) :
    usedForDrawing program (a ++ Call.glUseProgram program :: b) = true := by
  induction a with
  | nil => simp [usedForDrawing, h]
  | cons c rest ih => cases c <;> simp [usedForDrawing, ih]

theorem renderLoop_withStatus (env : Env) (window : Nat) (v f l : Int) (fuel : Nat) :
    ∀ i flag, renderLoop (env.withStatus v f l) window fuel i flag =
      renderLoop env window fuel i flag := by
  induction fuel with
  | zero => intro i flag; rfl
  | succ fuel ih =>
    intro i flag
    have hflag : flagAfterFrame (env.withStatus v f l) window i flag =
        flagAfterFrame env window i flag := rfl
    have hframe : frameCalls (env.withStatus v f l) window i flag =
        frameCalls env window i flag := rfl
    simp only [renderLoop, hflag, hframe, ih]

theorem withoutDiagnostics_append (a b : List Call) :
    withoutDiagnostics (a ++ b) = withoutDiagnostics a ++ withoutDiagnostics b := by
  simp [withoutDiagnostics, List.filter_append]

theorem withoutDiagnostics_startupCalls (env : Env) (window : Nat) :
    withoutDiagnostics (startupCalls env window) = quietStartupCalls env window := by
  unfold startupCalls setupCalls quietStartupCalls createWindowCalls uploadCalls
    vertexShaderCalls fragmentShaderCalls linkCalls attribCalls deleteCalls
  by_cases hv : env.vertexStatus = 0 <;> by_cases hf : env.fragmentStatus = 0 <;>
    by_cases hl : env.linkStatus = 0 <;>
    simp [hv, hf, hl, withoutDiagnostics, Call.isDiagnostic]

/-! ## The claims -/

/-- C7: for all widths `w` and heights `h` with `w, h > 0`, after
`framebuffer_size_callback(window, w, h)` the viewport is `(0, 0, w, h)`,
whatever the previous viewport and the window argument were, and no other
part of the graphics state has changed. -/
theorem C7_resize_sets_viewport (s : GLState) (window : Nat) (w h : Int)
    (hw : 0 < w) (hh : 0 < h) :
    framebuffer_size_callback window w h = [Call.glViewport 0 0 w h] ∧
    (runCalls s (framebuffer_size_callback window w h)).viewport = (0, 0, w, h) ∧
    runCalls s (framebuffer_size_callback window w h) = { s with viewport := (0, 0, w, h) } := by
  have h1 : ¬ (w < 0 ∨ h < 0) := by omega
  simp [runCalls, framebuffer_size_callback, applyCall, h1]

theorem C7_resize_sets_viewport_witness :
    (0 : Int) < 1024 ∧ (0 : Int) < 768 ∧
      runCalls (GLState.fresh 800 600) (framebuffer_size_callback 7 1024 768) =
        { GLState.fresh 800 600 with viewport := (0, 0, 1024, 768) } :=
  ⟨by decide, by decide,
   (C7_resize_sets_viewport (GLState.fresh 800 600) 7 1024 768 (by decide) (by decide)).2.2⟩

/-- C1: once window creation and GPU loading have succeeded, then for every
value of the three status words `main` never returns a failure status: it
issues the program creation, both attach calls, the link request and the
configuration of attribute 0, reaches the loop-head test, and when the
should-close flag is set at the end of iteration `n` it returns 0 after that
iteration. -/
theorem C1_shader_failures_not_fatal (env : Env) (window : Nat)
    (hw : env.window = some window) (hl : env.loaderOk = true) :
    (∀ fuel, (main env fuel).2 = none ∨ (main env fuel).2 = some 0) ∧
    (∀ fuel,
      [Call.glCreateProgram,
       Call.glAttachShader env.shaderProgram env.vertexShader,
       Call.glAttachShader env.shaderProgram env.fragmentShader,
       Call.glLinkProgram env.shaderProgram,
       Call.glVertexAttribPointer 0 3 GLenum.GL_FLOAT false 12 0,
       Call.glfwWindowShouldClose window].Sublist (main env (fuel + 1)).1) ∧
    (∀ n k, closesAt env window 0 n →
      main env (n + 2 + k) =
        (startupCalls env window ++ iterations env window 0 (n + 1) ++
          [Call.glfwWindowShouldClose window, Call.glfwTerminate], some 0)) := by
  refine ⟨fun fuel => ?_, fun fuel => ?_, fun n k hc => main_closes env window hw hl n k hc⟩
  · rw [main_started env window hw hl]
    split <;> simp
  · have key : ∀ x y : List Call,
        [Call.glCreateProgram,
         Call.glAttachShader env.shaderProgram env.vertexShader,
         Call.glAttachShader env.shaderProgram env.fragmentShader,
         Call.glLinkProgram env.shaderProgram,
         Call.glVertexAttribPointer 0 3 GLenum.GL_FLOAT false 12 0,
         Call.glfwWindowShouldClose window].Sublist
          (startupCalls env window ++ (Call.glfwWindowShouldClose window :: x) ++ y) := by
      intro x y
      have h1 := (startup_sublist env window).append
        (List.Sublist.cons₂ (Call.glfwWindowShouldClose window) (List.nil_sublist x))
      exact h1.trans (List.sublist_append_left _ y)
    rw [main_started env window hw hl]
    simp only [renderLoop, Bool.false_eq_true, if_false]
    split
    · exact key _ _
    · simpa using key _ []

theorem C1_shader_failures_not_fatal_witness :
    failedShadersEnv.vertexStatus = 0 ∧ failedShadersEnv.fragmentStatus = 0 ∧
      failedShadersEnv.linkStatus = 0 ∧ (main failedShadersEnv 3).2 = some 0 :=
  ⟨rfl, rfl, rfl, by
    rw [(C1_shader_failures_not_fatal failedShadersEnv 7 rfl rfl).2.2 1 0 (by decide)]⟩

/-- C5: the should-close flag is tested once per iteration, at the loop head.
If the flag is set at the end of iteration `n` (by `processInput` or by event
polling, and not cleared again), then iteration `n` still issues its whole
body with its one draw call and the buffer swap, the only calls after it are
the loop-head test and `glfwTerminate`, `n + 1` draw calls and `n + 2`
loop-head tests have been issued in total, and `main` returns 0. -/
theorem C5_termination_polled_at_loop_head (env : Env) (window : Nat)
    (hw : env.window = some window) (hl : env.loaderOk = true) (n k : Nat)
    (hc : closesAt env window 0 n) :
    main env (n + 2 + k) =
      (startupCalls env window ++ iterations env window 0 n ++
        (Call.glfwWindowShouldClose window ::
          ((processInput window (env.frames n).escapePressed false).1 ++
            [Call.glClearColor ⟨2, 1⟩ ⟨3, 1⟩ ⟨3, 1⟩ ⟨10, 1⟩,
             Call.glClear GLenum.GL_COLOR_BUFFER_BIT,
             Call.glUseProgram env.shaderProgram,
             Call.glBindVertexArray env.VAO,
             Call.glDrawArrays GLenum.GL_TRIANGLES 0 3,
             Call.glfwSwapBuffers window,
             Call.glfwPollEvents])) ++
        [Call.glfwWindowShouldClose window, Call.glfwTerminate], some 0) ∧
    (drawLog (GLState.fresh 800 600) (main env (n + 2 + k)).1).length = n + 1 ∧
    (main env (n + 2 + k)).1.count (Call.glfwWindowShouldClose window) = n + 2 := by
  have hm := main_closes env window hw hl n k hc
  refine ⟨?_, ?_, ?_⟩
  · rw [hm, iterations_succ_right]
    simp [frameCalls, renderCalls]
  · rw [hm]
    simp only [drawLog_append, drawLog_startupCalls, drawLog_iterations]
    simp [drawLog]
  · rw [hm]
    simp only [List.count_append, count_shouldClose_startupCalls,
      count_shouldClose_iterations]
    simp [List.count_cons]

theorem C5_termination_polled_at_loop_head_witness :
    closesAt goodEnv 7 0 1 ∧ (main goodEnv 3).2 = some 0 ∧
      (drawLog (GLState.fresh 800 600) (main goodEnv 3).1).length = 2 ∧
      (main goodEnv 3).1.count (Call.glfwWindowShouldClose 7) = 3 :=
  have h := C5_termination_polled_at_loop_head goodEnv 7 rfl rfl 1 0 (by decide)
  ⟨by decide, by rw [h.1], h.2.1, h.2.2⟩

/-- C6: every pass through the loop issues, after the loop-head test, exactly
the calls of `processInput`, `glClearColor(0.2, 0.3, 0.3, 1.0)`,
`glClear(GL_COLOR_BUFFER_BIT)`, `glUseProgram(shaderProgram)`,
`glBindVertexArray(VAO)`, `glDrawArrays(GL_TRIANGLES, 0, 3)`,
`glfwSwapBuffers(window)` and `glfwPollEvents()`, in this order and with
nothing between them.  A run whose should-close flag is first set at the end
of iteration `n` issues the set-up calls, exactly `n + 1` such passes, the
last loop-head test and `glfwTerminate`, and so exactly `n + 1` draw calls; a
run watched for `fuel` loop-head tests during which the flag stays unset has
issued exactly `fuel` passes and `fuel` draw calls. -/
theorem C6_frame_call_sequence (env : Env) (window : Nat)
    (hw : env.window = some window) (hl : env.loaderOk = true) :
    (∀ pressed flag, (processInput window pressed flag).1 =
      Call.glfwGetKey window GLFWconst.GLFW_KEY_ESCAPE ::
        (if pressed then [Call.glfwSetWindowShouldClose window true] else [])) ∧
    (∀ i n, iterations env window i (n + 1) =
      Call.glfwWindowShouldClose window ::
        ((processInput window (env.frames i).escapePressed false).1 ++
          [Call.glClearColor ⟨2, 1⟩ ⟨3, 1⟩ ⟨3, 1⟩ ⟨10, 1⟩,
           Call.glClear GLenum.GL_COLOR_BUFFER_BIT,
           Call.glUseProgram env.shaderProgram,
           Call.glBindVertexArray env.VAO,
           Call.glDrawArrays GLenum.GL_TRIANGLES 0 3,
           Call.glfwSwapBuffers window,
           Call.glfwPollEvents] ++
          iterations env window (i + 1) n)) ∧
    (∀ n k, closesAt env window 0 n →
      main env (n + 2 + k) =
        (startupCalls env window ++ iterations env window 0 (n + 1) ++
          [Call.glfwWindowShouldClose window, Call.glfwTerminate], some 0) ∧
      drawLog (GLState.fresh 800 600) (main env (n + 2 + k)).1 =
        List.replicate (n + 1)
          { vertexArray := env.VAO, mode := GLenum.GL_TRIANGLES, first := 0, count := 3 }) ∧
    (∀ fuel, (∀ j, j + 1 < fuel → flagAfterFrame env window j false = false) →
      main env fuel = (startupCalls env window ++ iterations env window 0 fuel, none) ∧
      drawLog (GLState.fresh 800 600) (main env fuel).1 =
        List.replicate fuel
          { vertexArray := env.VAO, mode := GLenum.GL_TRIANGLES, first := 0, count := 3 }) := by
  refine ⟨fun pressed flag => ?_, fun i n => ?_, fun n k hc => ?_, fun fuel h => ?_⟩
  · cases pressed <;> simp [processInput]
  · simp [iterations, frameCalls, renderCalls]
  · have hm := main_closes env window hw hl n k hc
    refine ⟨hm, ?_⟩
    rw [hm]
    simp only [drawLog_append, drawLog_startupCalls, drawLog_iterations, drawLog_shouldClose,
      drawLog_terminate, List.nil_append, List.append_nil]
    rfl
  · have hm := main_running env window hw hl fuel h
    refine ⟨hm, ?_⟩
    rw [hm]
    simp only [drawLog_append, drawLog_startupCalls, drawLog_iterations, List.nil_append]
    rfl

theorem C6_frame_call_sequence_witness :
    closesAt goodEnv 7 0 1 ∧
      main goodEnv 3 =
        (startupCalls goodEnv 7 ++ iterations goodEnv 7 0 2 ++
          [Call.glfwWindowShouldClose 7, Call.glfwTerminate], some 0) ∧
      drawLog (GLState.fresh 800 600) (main goodEnv 3).1 =
        List.replicate 2
          { vertexArray := goodEnv.VAO, mode := GLenum.GL_TRIANGLES, first := 0, count := 3 } :=
  ⟨by decide, (C6_frame_call_sequence goodEnv 7 rfl rfl).2.2.1 1 0 (by decide)⟩

/-- C4 as stated fails: in a run whose vertex compile and link report failure,
`glUseProgram(shaderProgram)` is still called and followed by a draw call. -/
theorem C4_counterexample :
    ¬ (usedForDrawing vertexFailedEnv.shaderProgram (main vertexFailedEnv 2).1 = true →
        vertexFailedEnv.vertexStatus ≠ 0 ∧ vertexFailedEnv.fragmentStatus ≠ 0 ∧
          vertexFailedEnv.linkStatus ≠ 0) := by
  decide

/-- C4 amended: in every run of `main` that passes both start-up checks, every
pass through the loop calls `glUseProgram(shaderProgram)`,
`glBindVertexArray(VAO)` and `glDrawArrays(GL_TRIANGLES, 0, 3)` one after the
other, whatever the vertex compile, fragment compile and link status queries
reported; the first pass always runs, so the program is always passed to
`glUseProgram` and followed by a draw call.  The three statuses only decide
whether the diagnostic calls are issued: with other status values the exit
status is the same and so is the call sequence apart from the diagnostic
calls. -/
theorem C4_program_drawn_regardless_of_status (env : Env) (window : Nat)
    (hw : env.window = some window) (hl : env.loaderOk = true) :
    (∀ i n, ∃ input, iterations env window i (n + 1) =
      Call.glfwWindowShouldClose window ::
        (input ++
          [Call.glClearColor ⟨2, 1⟩ ⟨3, 1⟩ ⟨3, 1⟩ ⟨10, 1⟩,
           Call.glClear GLenum.GL_COLOR_BUFFER_BIT,
           Call.glUseProgram env.shaderProgram,
           Call.glBindVertexArray env.VAO,
           Call.glDrawArrays GLenum.GL_TRIANGLES 0 3,
           Call.glfwSwapBuffers window,
           Call.glfwPollEvents] ++
          iterations env window (i + 1) n)) ∧
    (∀ n k, closesAt env window 0 n →
      main env (n + 2 + k) =
        (startupCalls env window ++ iterations env window 0 (n + 1) ++
          [Call.glfwWindowShouldClose window, Call.glfwTerminate], some 0)) ∧
    (∀ fuel, (∀ j, j + 1 < fuel → flagAfterFrame env window j false = false) →
      main env fuel = (startupCalls env window ++ iterations env window 0 fuel, none)) ∧
    (∀ fuel, usedForDrawing env.shaderProgram (main env (fuel + 1)).1 = true) ∧
    (∀ v f l fuel,
      (main (env.withStatus v f l) fuel).2 = (main env fuel).2 ∧
      withoutDiagnostics (main (env.withStatus v f l) fuel).1 =
        withoutDiagnostics (main env fuel).1) := by
  refine ⟨fun i n => ?_, fun n k hc => main_closes env window hw hl n k hc,
    fun fuel h => main_running env window hw hl fuel h, fun fuel => ?_, fun v f l fuel => ?_⟩
  · exact ⟨(processInput window (env.frames i).escapePressed false).1,
      by simp [iterations, frameCalls, renderCalls]⟩
  · have key : ∀ x y : List Call,
        usedForDrawing env.shaderProgram
          (startupCalls env window ++
            (Call.glfwWindowShouldClose window :: (frameCalls env window 0 false ++ x)) ++
            y) = true := by
      intro x y
      have e : startupCalls env window ++
            (Call.glfwWindowShouldClose window :: (frameCalls env window 0 false ++ x)) ++ y =
          (startupCalls env window ++ Call.glfwWindowShouldClose window ::
            ((processInput window (env.frames 0).escapePressed false).1 ++
              [Call.glClearColor ⟨2, 1⟩ ⟨3, 1⟩ ⟨3, 1⟩ ⟨10, 1⟩,
               Call.glClear GLenum.GL_COLOR_BUFFER_BIT])) ++
          Call.glUseProgram env.shaderProgram ::
            ([Call.glBindVertexArray env.VAO,
              Call.glDrawArrays GLenum.GL_TRIANGLES 0 3,
              Call.glfwSwapBuffers window,
              Call.glfwPollEvents] ++ x ++ y) := by
        simp [frameCalls, renderCalls]
      rw [e]
      exact usedForDrawing_append _ _ _ (by simp [Call.isDraw])
    rw [main_started env window hw hl]
    simp only [renderLoop, Bool.false_eq_true, if_false]
    split
    · exact key _ _
    · simpa using key _ []
  · have hw2 : (env.withStatus v f l).window = some window := hw
    have hl2 : (env.withStatus v f l).loaderOk = true := hl
    have hq : quietStartupCalls (env.withStatus v f l) window =
        quietStartupCalls env window := rfl
    rw [main_started env window hw hl, main_started _ window hw2 hl2,
      renderLoop_withStatus]
    split
    · simp only [withoutDiagnostics_append, withoutDiagnostics_startupCalls, hq, and_self]
    · simp only [withoutDiagnostics_append, withoutDiagnostics_startupCalls, hq, and_self]

theorem C4_program_drawn_regardless_of_status_witness :
    failedShadersEnv.vertexStatus = 0 ∧ failedShadersEnv.fragmentStatus = 0 ∧
      failedShadersEnv.linkStatus = 0 ∧
      usedForDrawing failedShadersEnv.shaderProgram (main failedShadersEnv 3).1 = true ∧
      withoutDiagnostics (main (failedShadersEnv.withStatus 1 1 1) 3).1 =
        withoutDiagnostics (main failedShadersEnv 3).1 :=
  ⟨rfl, rfl, rfl,
   (C4_program_drawn_regardless_of_status failedShadersEnv 7 rfl rfl).2.2.2.1 2,
   ((C4_program_drawn_regardless_of_status failedShadersEnv 7 rfl rfl).2.2.2.2 1 1 1 3).2⟩

/-- C9 as stated fails: the vertex compile reports failure and nothing at all
is written to the standard error stream. -/
theorem C9_counterexample :
    vertexFailedEnv.vertexStatus = 0 ∧
      ∀ p ∈ writes (main vertexFailedEnv 2).1, p.1 ≠ OutStream.stderr := by
  decide

/-- C9 amended: whenever the vertex compile-status query, the fragment
compile-status query or the link-status query reports failure, the matching
`ERROR::` line followed by the retrieved diagnostic is written to the
standard output stream; nothing is written for a query that reports success,
and these are all the writes of a run that passes both start-up checks. -/
theorem C9_diagnostics_written_to_stdout (env : Env) (window : Nat)
    (hw : env.window = some window) (hl : env.loaderOk = true) (fuel : Nat) :
    writes (main env fuel).1 =
      (if env.vertexStatus = 0 then
        [(OutStream.stdout, "ERROR::SHADER::VERTEX::COMPILATION_FAILED\n" ++ env.vertexLog)]
       else []) ++
      (if env.fragmentStatus = 0 then
        [(OutStream.stdout, "ERROR::SHADER::FRAGMENT::COMPILATION_FAILED\n" ++ env.fragmentLog)]
       else []) ++
      (if env.linkStatus = 0 then
        [(OutStream.stdout, "ERROR::SHADER::PROGRAM::LINKING_FAILED\n" ++ env.linkLog)]
       else []) := by
  rw [main_started env window hw hl]
  split
  · simp only [writes_append, writes_renderLoop, writes_startupCalls, List.append_nil]
    simp [writes, Call.written]
  · simp only [writes_append, writes_renderLoop, writes_startupCalls, List.append_nil]

theorem C9_diagnostics_written_to_stdout_witness :
    writes (main vertexFailedEnv 2).1 =
      [(OutStream.stdout, "ERROR::SHADER::VERTEX::COMPILATION_FAILED\n0:5: syntax error"),
       (OutStream.stdout, "ERROR::SHADER::PROGRAM::LINKING_FAILED\nlink of invalid shaders")] := by
  rw [C9_diagnostics_written_to_stdout vertexFailedEnv 7 rfl rfl 2]
  decide

/-- C2 as stated fails: when window creation fails the loader is not invoked
at all, so it is not invoked exactly once on every run. -/
theorem C2_counterexample :
    noWindowEnv.window = none ∧ ¬ ((main noWindowEnv 3).1.countP Call.isLoader = 1) := by
  decide

/-- C2 amended: if window creation returns no handle, or if the GPU loader
reports failure, `main` writes a message and returns the nonzero status -1
without issuing any graphics call; the loader is not invoked when window
creation fails, and on every run in which window creation succeeds it is
invoked exactly once and before the first graphics call. -/
theorem C2_startup_failures_fatal (env : Env) (fuel : Nat) :
    (env.window = none →
      (main env fuel).2 = some (-1) ∧
      writes (main env fuel).1 = [(OutStream.stdout, "Failed to create GLFW window")] ∧
      (∀ c ∈ (main env fuel).1, c.isGraphics = false) ∧
      (main env fuel).1.countP Call.isLoader = 0) ∧
    (∀ window, env.window = some window → env.loaderOk = false →
      (main env fuel).2 = some (-1) ∧
      writes (main env fuel).1 = [(OutStream.stdout, "Failed to initialize GLAD")] ∧
      (∀ c ∈ (main env fuel).1, c.isGraphics = false)) ∧
    (∀ window, env.window = some window →
      (main env fuel).1.countP Call.isLoader = 1 ∧
      ∃ rest, (main env fuel).1 =
          createWindowCalls ++ [Call.glfwMakeContextCurrent window] ++
            Call.gladLoadGLLoader :: rest ∧
        ∀ c ∈ createWindowCalls ++ [Call.glfwMakeContextCurrent window],
          c.isGraphics = false) ∧
    (-1 : Int) ≠ 0 := by
  refine ⟨fun hw => ?_, fun window hw hl => ?_, fun window hw => ?_, by decide⟩
  · simp [main, hw, createWindowCalls, writes, Call.written, Call.isGraphics, Call.isLoader]
  · simp [main, hw, hl, createWindowCalls, writes, Call.written, Call.isGraphics]
  · have hpre : ∀ c ∈ createWindowCalls ++ [Call.glfwMakeContextCurrent window],
        c.isGraphics = false := by
      simp [createWindowCalls, Call.isGraphics]
    have hcnt : createWindowCalls.countP Call.isLoader = 0 := by
      simp [createWindowCalls, Call.isLoader]
    cases hl : env.loaderOk with
    | false =>
      refine ⟨?_, ⟨[Call.write OutStream.stdout "Failed to initialize GLAD"], ?_, hpre⟩⟩
      · simp [main, hw, hl, createWindowCalls, Call.isLoader]
      · simp [main, hw, hl]
    | true =>
      rw [main_started env window hw hl]
      split
      · refine ⟨?_, ⟨setupCalls env window ++ (renderLoop env window fuel 0 false).1 ++
          [Call.glfwTerminate], ?_, hpre⟩⟩
        · simp only [startupCalls, List.countP_append, isLoader_setupCalls,
            isLoader_renderLoop, hcnt]
          simp [List.countP_cons, Call.isLoader]
        · simp [startupCalls]
      · refine ⟨?_, ⟨setupCalls env window ++ (renderLoop env window fuel 0 false).1,
          ?_, hpre⟩⟩
        · simp only [startupCalls, List.countP_append, isLoader_setupCalls,
            isLoader_renderLoop, hcnt]
          simp [List.countP_cons, Call.isLoader]
        · simp [startupCalls]

theorem C2_startup_failures_fatal_witness :
    ((main noWindowEnv 3).2 = some (-1) ∧
      writes (main noWindowEnv 3).1 = [(OutStream.stdout, "Failed to create GLFW window")] ∧
      (∀ c ∈ (main noWindowEnv 3).1, c.isGraphics = false) ∧
      (main noWindowEnv 3).1.countP Call.isLoader = 0) ∧
    ((main noLoaderEnv 3).2 = some (-1) ∧
      writes (main noLoaderEnv 3).1 = [(OutStream.stdout, "Failed to initialize GLAD")] ∧
      (∀ c ∈ (main noLoaderEnv 3).1, c.isGraphics = false)) :=
  ⟨(C2_startup_failures_fatal noWindowEnv 3).1 rfl,
   (C2_startup_failures_fatal noLoaderEnv 3).2.1 7 rfl rfl⟩

/-- C8: the geometry upload hands the 9 floats
`(-0.5,-0.5,0), (0.5,-0.5,0), (0,0.5,0)` with byte size 36 to the bound array
buffer; attribute 0 is configured as 3 components of `GL_FLOAT`, not
normalized, stride 12, offset 0, and enabled; when it is configured the bound
array buffer is the buffer holding those 36 bytes and the bound vertex array
is `VAO`; 36 bytes at stride 12 are exactly 3 vertices; and every draw call of
the run is issued with `VAO` bound and draws 3 vertices from index 0. -/
theorem C8_geometry_upload (env : Env) (window : Nat)
    (hw : env.window = some window) (hl : env.loaderOk = true) :
    (∀ fuel, (∃ rest, (main env fuel).1 =
        beforeAttribCalls env window ++
          [Call.glVertexAttribPointer 0 3 GLenum.GL_FLOAT false 12 0,
           Call.glEnableVertexAttribArray 0] ++ rest) ∧
      ∀ d ∈ drawLog (GLState.fresh 800 600) (main env fuel).1,
        d.vertexArray = env.VAO ∧ d.first = 0 ∧ d.count = 3) ∧
    Call.glBufferData GLenum.GL_ARRAY_BUFFER 36
        [⟨-5, 1⟩, ⟨-5, 1⟩, ⟨0, 1⟩, ⟨5, 1⟩, ⟨-5, 1⟩, ⟨0, 1⟩, ⟨0, 1⟩, ⟨5, 1⟩, ⟨0, 1⟩]
        GLenum.GL_STATIC_DRAW ∈ beforeAttribCalls env window ∧
    (runCalls (GLState.fresh 800 600) (beforeAttribCalls env window)).arrayBuffer = env.VBO ∧
    (runCalls (GLState.fresh 800 600) (beforeAttribCalls env window)).vertexArray = env.VAO ∧
    (runCalls (GLState.fresh 800 600) (beforeAttribCalls env window)).bufferContents env.VBO =
      some (36,
        [⟨-5, 1⟩, ⟨-5, 1⟩, ⟨0, 1⟩, ⟨5, 1⟩, ⟨-5, 1⟩, ⟨0, 1⟩, ⟨0, 1⟩, ⟨5, 1⟩, ⟨0, 1⟩]) ∧
    (runCalls (GLState.fresh 800 600)
        (beforeAttribCalls env window ++ attribCalls)).attribLayout env.VAO 0 =
      some { size := 3, type := GLenum.GL_FLOAT, normalized := false, stride := 12,
             offset := 0, buffer := env.VBO } ∧
    (env.VAO, 0) ∈ (runCalls (GLState.fresh 800 600)
        (beforeAttribCalls env window ++ attribCalls)).enabled ∧
    sizeofVertices / (3 * sizeofFloat) = 3 := by
  refine ⟨fun fuel => ⟨?_, ?_⟩, ?_, ?_, ?_, ?_, ?_, ?_, by decide⟩
  · rw [main_started env window hw hl, startupCalls_eq]
    split
    · exact ⟨deleteCalls env ++ (renderLoop env window fuel 0 false).1 ++
        [Call.glfwTerminate], by simp [attribCalls, sizeofFloat]⟩
    · exact ⟨deleteCalls env ++ (renderLoop env window fuel 0 false).1,
        by simp [attribCalls, sizeofFloat]⟩
  · obtain ⟨k, e⟩ := drawLog_main env window hw hl fuel
    intro d hd
    rw [e] at hd
    rw [List.eq_of_mem_replicate hd]
    exact ⟨rfl, rfl, rfl⟩
  · simp [beforeAttribCalls, uploadCalls, sizeofVertices, sizeofFloat, vertices]
  · rw [runCalls_beforeAttribCalls]
  · rw [runCalls_beforeAttribCalls]
  · rw [runCalls_beforeAttribCalls]
    simp [GLState.bufferContents, vertices]
  · rw [runCalls_append, runCalls_beforeAttribCalls]
    simp [runCalls, attribCalls, applyCall, GLState.attribLayout, sizeofFloat]
  · rw [runCalls_append, runCalls_beforeAttribCalls]
    simp [runCalls, attribCalls, applyCall]

theorem C8_geometry_upload_witness :
    (runCalls (GLState.fresh 800 600)
        (beforeAttribCalls goodEnv 7 ++ attribCalls)).attribLayout goodEnv.VAO 0 =
      some { size := 3, type := GLenum.GL_FLOAT, normalized := false, stride := 12,
             offset := 0, buffer := goodEnv.VBO } :=
  (C8_geometry_upload goodEnv 7 rfl rfl).2.2.2.2.2.1

/-- C10: whenever linking succeeds (and the two shader names are distinct, as
the names of two live objects are), the call sequence has the link request,
the link-status query, the two attribute calls and then the deletion of the
vertex shader and of the fragment shader; no loop-head test and no deletion
precedes them, so both deletions come after the link and before the first
frame; each of the two names is deleted exactly once; the second deletion
does not take the first name, and no later call takes a shader name. -/
theorem C10_shaders_deleted_after_link (env : Env) (window : Nat)
    (hw : env.window = some window) (hl : env.loaderOk = true)
    (hlink : env.linkStatus ≠ 0) (hne : env.vertexShader ≠ env.fragmentShader)
    (fuel : Nat) :
    deletions (main env fuel).1 = [env.vertexShader, env.fragmentShader] ∧
    (deletions (main env fuel).1).count env.vertexShader = 1 ∧
    (deletions (main env fuel).1).count env.fragmentShader = 1 ∧
    (Call.glDeleteShader env.fragmentShader).shaderArg ≠ some env.vertexShader ∧
    ∃ before rest, (main env fuel).1 =
        before ++
          [Call.glLinkProgram env.shaderProgram,
           Call.glGetProgramiv env.shaderProgram GLenum.GL_LINK_STATUS,
           Call.glVertexAttribPointer 0 3 GLenum.GL_FLOAT false 12 0,
           Call.glEnableVertexAttribArray 0,
           Call.glDeleteShader env.vertexShader,
           Call.glDeleteShader env.fragmentShader] ++ rest ∧
      Call.glfwWindowShouldClose window ∉ before ∧
      (∀ c ∈ before, c.deleted = none) ∧
      ∀ c ∈ rest, c.shaderArg = none := by
  have hdel : deletions (main env fuel).1 = [env.vertexShader, env.fragmentShader] := by
    rw [main_started env window hw hl]
    have ht : deletions [Call.glfwTerminate] = [] := rfl
    split <;>
      simp only [deletions_append, deletions_renderLoop, deletions_startupCalls, ht,
        List.append_nil]
  have hstart : startupCalls env window =
      beforeLinkCalls env window ++
        [Call.glLinkProgram env.shaderProgram,
         Call.glGetProgramiv env.shaderProgram GLenum.GL_LINK_STATUS,
         Call.glVertexAttribPointer 0 3 GLenum.GL_FLOAT false 12 0,
         Call.glEnableVertexAttribArray 0,
         Call.glDeleteShader env.vertexShader,
         Call.glDeleteShader env.fragmentShader] := by
    simp [startupCalls, setupCalls, beforeLinkCalls, linkCalls, hlink, attribCalls,
      deleteCalls, sizeofFloat]
  have hne2 : env.fragmentShader ≠ env.vertexShader := fun h => hne h.symm
  refine ⟨hdel, ?_, ?_, ?_, ?_⟩
  · rw [hdel]; simp [List.count_cons, hne2]
  · rw [hdel]; simp [List.count_cons, hne]
  · simpa [Call.shaderArg] using hne2
  · rw [main_started env window hw hl, hstart]
    split
    · refine ⟨beforeLinkCalls env window,
        (renderLoop env window fuel 0 false).1 ++ [Call.glfwTerminate], by simp,
        (beforeLinkCalls_spec env window).1, (beforeLinkCalls_spec env window).2, ?_⟩
      intro c hc
      rcases List.mem_append.1 hc with h | h
      · exact shaderArg_renderLoop env window fuel 0 false c h
      · simp at h; rw [h]; rfl
    · exact ⟨beforeLinkCalls env window, (renderLoop env window fuel 0 false).1, by simp,
        (beforeLinkCalls_spec env window).1, (beforeLinkCalls_spec env window).2,
        shaderArg_renderLoop env window fuel 0 false⟩

theorem C10_shaders_deleted_after_link_witness :
    goodEnv.linkStatus ≠ 0 ∧
      deletions (main goodEnv 3).1 = [goodEnv.vertexShader, goodEnv.fragmentShader] :=
  ⟨by decide,
   (C10_shaders_deleted_after_link goodEnv 7 rfl rfl (by decide) (by decide) 3).1⟩

end OpenGLMinimal
